import Mathlib

/-!
Verification development for the nifty-bot trading repository.

The repository contains two engine variants:

* bot.py — the monolithic v9 bot: the live engine (Bot._bar, Bot._exit,
  Bot._entry, class Unit) plus an in-file backtest (run_backtest), both
  reading the constant block at the top of bot.py;
* the modular variant — config.py, strategy.py, units.py and backtest.py
  (class Backtester / BacktestUnit), reading config.py.

All money and price arithmetic is embedded over the rationals.  Python
round(x, 2) (round half to even on binary floats) is modelled by Mathlib
round (round half up); the theorems in this file use only the monotonicity
of rounding and the fact that exact two-decimal values are fixed points,
both of which hold for either tie-breaking rule.  Timestamps are encoded
as minutes of the day, dates as integer day codes, months as integer month
codes, weekdays as naturals with 0 = Monday; the Python tuple comparisons
on (hour, minute) pairs are exactly the comparisons on minutes of the day.
Indicator enrichment (get_signal) and the Brenner-formula premium
synth_prem (which contains a square root) are the external collaborators
of spec section 6: the per-bar kernels receive the bar's directional
signal and the synthetic at-the-money premium quote as inputs, exactly as
the engine loops receive them from those helpers.
-/

attribute [local semireducible] Rat.add Rat.mul Rat.sub Rat.inv

/-- Rounding to two decimal places over the rationals, modelling Python
round(x, 2) as used by calc_pnl in bot.py and strategy.py.  Written with
the executable Rat.floor so that concrete runs evaluate; it agrees with
Mathlib round (100 * x) scaled back down, see round2_eq_round. -/
def round2 (x : ℚ) : ℚ := (((100 * x + 1 / 2 : ℚ).floor : ℤ) : ℚ) / 100

/-- Option side: buy call (CE, bullish) or buy put (PE, bearish). -/
inductive OptType where
  | CE : OptType
  | PE : OptType
  deriving DecidableEq, Repr

/-- Sign used by the synthetic pricing models: +1 for a call, -1 for a put. -/
def sign_of : OptType → ℚ
  | .CE => 1
  | .PE => -1

/- Constant block of bot.py (lines 45-85).  Times are minutes of the day. -/

def TOTAL_CAPITAL : ℚ := 100000

def NUM_UNITS : ℕ := 5

def UNIT_SIZE : ℚ := 20000

def SL_PCT : ℚ := 30 / 100

def TP_PCT : ℚ := 60 / 100

def TIME_EXIT_BARS : ℕ := 8

def MIN_HOLD_BARS : ℕ := 2

def MAX_COST_PCT : ℚ := 65 / 100

def MAX_LOTS : ℕ := 2

def LOT_SIZE : ℚ := 65

def MAX_TRADES_PER_DAY : ℕ := 3

def MAX_PORT_DD_MONTHLY : ℚ := 8 / 100

def MAX_PORT_DD_DAILY : ℚ := 5 / 100

def MAX_UNIT_DD_DAILY : ℚ := 12 / 100

def LOSS_STREAK_LIMIT : ℕ := 2

def COOLDOWN_BARS : ℕ := 4

def ENTRY_START : ℕ := 9 * 60 + 30

def ENTRY_END : ℕ := 14 * 60 + 15

def HARD_CLOSE : ℕ := 15 * 60 + 5

/- Constant block of config.py (modular variant), prefixed cfg_. -/

def cfg_TOTAL_CAPITAL : ℚ := 100000

def cfg_NUM_UNITS : ℕ := 5

def cfg_UNIT_SIZE : ℚ := 20000

def cfg_ENTRY_START : ℕ := 9 * 60 + 30

def cfg_ENTRY_END : ℕ := 14 * 60 + 15

def cfg_HARD_CLOSE : ℕ := 15 * 60 + 10

def cfg_SIGNAL_COOLDOWN : ℤ := 4

def cfg_MAX_COST_PCT : ℚ := 55 / 100

def cfg_LOT_SIZE : ℚ := 75

def cfg_SL_DROP_PCT : ℚ := 25 / 100

def cfg_TP_GAIN_PCT : ℚ := 50 / 100

def cfg_TIME_EXIT_BARS : ℤ := 6

def cfg_MIN_HOLD_BARS : ℤ := 1

def cfg_MAX_PORT_DD : ℚ := 10 / 100

def cfg_MAX_UNIT_DAY_LOSS : ℚ := 15 / 100

def cfg_MAX_PORT_DAY_LOSS : ℚ := 5 / 100

def cfg_LOSS_STREAK_MAX : ℕ := 2

def cfg_COOLDOWN_BARS : ℕ := 4

/-- Synthetic current-premium estimate, bot.py mark_prem (lines 318-326):
sign * (delta * spot_chg + 0.5 * gamma * spot_chg^2) with delta = 0.50,
gamma = 0.00015, per-bar theta = entry_prem * 0.0002, floored at 0.5. -/
def mark_prem (entry_prem entry_spot cur_spot : ℚ) (opt : OptType) (bars : ℕ) : ℚ :=
  let delta : ℚ := 50 / 100
  let gamma : ℚ := 15 / 100000
  let theta : ℚ := entry_prem * (2 / 10000)
  let spot_chg : ℚ := cur_spot - entry_spot
  let prem_chg : ℚ := sign_of opt * (delta * spot_chg + (1 / 2) * gamma * spot_chg ^ 2)
  max (entry_prem + prem_chg - theta * (bars : ℚ)) (1 / 2)

/-- Net P&L with 0.3 percent slippage and the premium-paid loss floor.
This formula appears verbatim both as calc_pnl in bot.py (lines 328-331)
and as calc_pnl in strategy.py (lines 162-168). -/
def calc_pnl (ep xp lot : ℚ) (qty : ℕ) : ℚ :=
  let slip : ℚ := (ep + xp) * (3 / 1000) * lot * (qty : ℚ)
  let raw : ℚ := (xp - ep) * lot * (qty : ℚ)
  round2 (max (raw - slip) (-(ep * lot * (qty : ℚ))))

/-- An open trade of bot.py (the dict built in Bot._entry, lines 654-659).
Pure bookkeeping strings (entry_time, symbol, sid) are omitted: they do not
feed any decision. -/
structure Trade where
  unit : ℕ
  bars : ℕ
  peak : ℚ
  entry_spot : ℚ
  entry_prem : ℚ
  opt_type : OptType
  qty : ℕ
  lot_size : ℚ
  strike : ℚ
  deriving DecidableEq, Repr

/-- A closed-trade record of bot.py (the rec dict of Bot._exit, lines
618-619), restricted to the decision-relevant fields. -/
structure ClosedRec where
  unit : ℕ
  opt_type : OptType
  entry_prem : ℚ
  exit_prem : ℚ
  exit_spot : ℚ
  bars_held : ℕ
  pnl : ℚ
  qty : ℕ
  lot_size : ℚ
  reason : String
  deriving DecidableEq, Repr

/-- Result of one exit evaluation: the chosen reason (if any), the current
premium estimate, and the trade dict after the in-place mutations of
Bot._exit (bars incremented after being read, peak raised). -/
structure ExitEval where
  reason : Option String
  cp : ℚ
  next : Trade
  deriving DecidableEq, Repr

/-- Exit decision of the live engine, bot.py Bot._exit lines 588-611:
reads bars held, increments the counter afterwards, marks the premium,
raises the peak, then resolves EOD first and, past the minimum hold,
SL, TP, TRAIL, TIME in that order.  (The Python guard `trail and cp < trail`
also skips a trail level of exactly 0.0; a trail level is 0 only for a
non-positive entry premium, which synth_prem never produces.) -/
def bot_exit_eval (t : Trade) (spot : ℚ) (eod : Bool) : ExitEval :=
  let bh := t.bars
  let cp := mark_prem t.entry_prem t.entry_spot spot t.opt_type bh
  let peak := max t.peak cp
  let sl_lvl := t.entry_prem * (1 - SL_PCT)
  let tp_lvl := t.entry_prem * (1 + TP_PCT)
  let trail : Option ℚ :=
    if t.entry_prem * (140 / 100) ≤ peak then some (peak * (75 / 100)) else none
  let reason : Option String :=
    if eod then some "EOD"
    else if MIN_HOLD_BARS ≤ bh then
      if cp ≤ sl_lvl then some "SL"
      else if tp_lvl ≤ cp then some "TP"
      else if (match trail with | some tr => decide (cp < tr) | none => false) then some "TRAIL"
      else if TIME_EXIT_BARS ≤ bh then some "TIME"
      else none
    else none
  { reason := reason, cp := cp, next := { t with bars := bh + 1, peak := peak } }

/-- Exit decision of the in-file backtest of bot.py, run_backtest lines
752-771.  The Python source duplicates the body of Bot._exit verbatim;
this definition transcribes that second copy. -/
def bt9_exit_eval (t : Trade) (spot : ℚ) (eod : Bool) : ExitEval :=
  let bh := t.bars
  let cp := mark_prem t.entry_prem t.entry_spot spot t.opt_type bh
  let peak := max t.peak cp
  let sl := t.entry_prem * (1 - SL_PCT)
  let tp := t.entry_prem * (1 + TP_PCT)
  let tr : Option ℚ :=
    if t.entry_prem * (140 / 100) ≤ peak then some (peak * (75 / 100)) else none
  let reason : Option String :=
    if eod then some "EOD"
    else if MIN_HOLD_BARS ≤ bh then
      if cp ≤ sl then some "SL"
      else if tp ≤ cp then some "TP"
      else if (match tr with | some trv => decide (cp < trv) | none => false) then some "TRAIL"
      else if TIME_EXIT_BARS ≤ bh then some "TIME"
      else none
    else none
  { reason := reason, cp := cp, next := { t with bars := bh + 1, peak := peak } }

/-- A capital unit of bot.py (class Unit, lines 336-408).  day_trades and
day_pnl are the defaultdicts keyed by date. -/
structure BUnit where
  uid : ℕ
  capital : ℚ
  trade : Option Trade
  streak : ℕ
  cooldown : ℕ
  n_trades : ℕ
  last_bar : ℤ
  day_trades : ℤ → ℕ
  day_pnl : ℤ → ℚ

instance : Inhabited BUnit :=
  ⟨{ uid := 0, capital := UNIT_SIZE, trade := none, streak := 0, cooldown := 0,
     n_trades := 0, last_bar := -99, day_trades := fun _ => 0, day_pnl := fun _ => 0 }⟩

/-- bot.py Unit.free (property, lines 348-350). -/
def BUnit.free (u : BUnit) : Bool := u.trade.isNone && u.cooldown == 0

/-- bot.py Unit.can_enter (lines 352-358). -/
def BUnit.can_enter (u : BUnit) (d i : ℤ) : Bool :=
  u.free
    && !(decide (u.day_pnl d < -(UNIT_SIZE * MAX_UNIT_DD_DAILY)))
    && decide (u.day_trades d < MAX_TRADES_PER_DAY)
    && !(decide (i - u.last_bar < 1))

/-- bot.py Unit.enter (lines 360-364). -/
def BUnit.enter (u : BUnit) (t : Trade) (bar_idx : ℤ) (d : ℤ) : BUnit :=
  { u with trade := some t, n_trades := u.n_trades + 1, last_bar := bar_idx,
           day_trades := fun x => if x = d then u.day_trades x + 1 else u.day_trades x }

/-- bot.py Unit.close (lines 366-376): add the P&L to capital and the
day's P&L, drop the trade, then update the loss streak and cooldown. -/
def BUnit.close (u : BUnit) (pnl : ℚ) (d : ℤ) : BUnit :=
  let u1 : BUnit :=
    { u with capital := u.capital + pnl,
             day_pnl := fun x => if x = d then u.day_pnl x + pnl else u.day_pnl x,
             trade := none }
  if pnl < 0 then
    if LOSS_STREAK_LIMIT ≤ u1.streak + 1 then
      { u1 with cooldown := COOLDOWN_BARS, streak := 0 }
    else
      { u1 with streak := u1.streak + 1 }
  else
    { u1 with streak := 0 }

/-- bot.py Unit.tick (lines 386-387). -/
def BUnit.tick (u : BUnit) : BUnit :=
  if 0 < u.cooldown then { u with cooldown := u.cooldown - 1 } else u

/-- Round-robin scan skeleton shared (as a Python idiom) by the three
allocators in the repository: try attempt indices a, a+1, ... until the
attempt budget r is exhausted, visiting unit ids (rr + a) % n, and return
the first id accepted by the predicate. -/
def rrScanAux (p : ℕ → Bool) (rr n : ℕ) : ℕ → ℕ → Option ℕ
  | _, 0 => none
  | a, r + 1 =>
    if p ((rr + a) % n) then some ((rr + a) % n) else rrScanAux p rr n (a + 1) r

/-- Full round-robin scan: n attempts starting at pointer rr. -/
def rrScan (p : ℕ → Bool) (rr n : ℕ) : Option ℕ := rrScanAux p rr n 0 n

/-- Quantity sizing of bot.py Bot._entry lines 651-652:
min(MAX_LOTS, max(1, int(capital * MAX_COST_PCT / (ep * LOT_SIZE)))).
Python int() truncates toward zero; the operand is nonnegative whenever
capital is, so it is the floor. -/
def qty_calc (capital ep : ℚ) : ℕ :=
  min MAX_LOTS (max 1 (Int.toNat ⌊capital * MAX_COST_PCT / (ep * LOT_SIZE)⌋))

/-- ATM strike used by bot.py: round(spot / 50) * 50 (line 658), written
with the executable Rat.floor (round x = ⌊x + 1/2⌋). -/
def strike_calc (spot : ℚ) : ℚ := (((spot / 50 + 1 / 2 : ℚ).floor : ℤ) : ℚ) * 50

/-- The trade dict built on entry by bot.py Bot._entry lines 654-659. -/
def mk_trade (uid : ℕ) (ep spot : ℚ) (sig : OptType) (qty : ℕ) : Trade :=
  { unit := uid, bars := 0, peak := ep, entry_spot := spot, entry_prem := ep,
    opt_type := sig, qty := qty, lot_size := LOT_SIZE, strike := strike_calc spot }

/-- Acceptance test of one attempt of the entry loop of bot.py Bot._entry
(lines 640-649): Unit.can_enter plus the affordability check
`if ep * lot > u.capital: continue`. -/
def bot_can_take (u : BUnit) (d i : ℤ) (ep : ℚ) : Bool :=
  u.can_enter d i && !(decide (u.capital < ep * LOT_SIZE))

/-- Unit id selected by the entry loop of bot.py Bot._entry lines 640-649. -/
def bot_entry_pick (units : List BUnit) (rr : ℕ) (d i : ℤ) (ep : ℚ) : Option ℕ :=
  rrScan
    (fun uid =>
      match units[uid]? with
      | some u => bot_can_take u d i ep
      | none => false)
    rr NUM_UNITS

/-- Full entry resolution of bot.py Bot._entry lines 640-671: on success
the selected unit enters the freshly built trade and the rotating pointer
advances to one past it. -/
def bot_entry (units : List BUnit) (rr : ℕ) (d i : ℤ) (ep spot : ℚ) (sig : OptType) :
    List BUnit × ℕ × Option (ℕ × Trade) :=
  match bot_entry_pick units rr d i ep with
  | none => (units, rr, none)
  | some uid =>
    let u := units[uid]?.getD default
    let t := mk_trade uid ep spot sig (qty_calc u.capital ep)
    (units.set uid (u.enter t i d), (uid + 1) % NUM_UNITS, some (uid, t))

/-- Quantity sizing of run_backtest in bot.py, line 792 (the source
duplicates the Bot._entry sizing expression). -/
def bt9_qty (capital ep : ℚ) : ℕ :=
  min MAX_LOTS (max 1 (Int.toNat ⌊capital * MAX_COST_PCT / (ep * LOT_SIZE)⌋))

/-- Acceptance test of one attempt of the entry loop of run_backtest in
bot.py, lines 785-791 (duplicated from Bot._entry). -/
def bt9_can_take (u : BUnit) (d i : ℤ) (ep : ℚ) : Bool :=
  u.can_enter d i && !(decide (u.capital < ep * LOT_SIZE))

/-- Unit id selected by the entry loop of run_backtest in bot.py,
lines 785-800. -/
def bt9_entry_pick (units : List BUnit) (rr : ℕ) (d i : ℤ) (ep : ℚ) : Option ℕ :=
  rrScan
    (fun uid =>
      match units[uid]? with
      | some u => bt9_can_take u d i ep
      | none => false)
    rr NUM_UNITS

/-- Eligibility as worded by claim C5 and spec section 4.2: the five
conditions state == Free, cooldownBarsRemaining == 0,
dailyPnlByDate[today] > -(unitSize * maxUnitDayLossFraction),
tradeCountToday < maxTradesPerDayPerUnit, and
currentBarIndex - lastEntryBarIndex >= signalCooldownBars (which is the
hard-coded 1 of bot.py line 357).  This definition follows the words of
the specification, for comparison against the source-derived scan. -/
def claim5_ok (u : BUnit) (d i : ℤ) : Bool :=
  u.trade.isNone && u.cooldown == 0
    && decide (-(UNIT_SIZE * MAX_UNIT_DD_DAILY) < u.day_pnl d)
    && decide (u.day_trades d < MAX_TRADES_PER_DAY)
    && decide (1 ≤ i - u.last_bar)

/-- First unit in round-robin order satisfying the five conditions of
claim C5, following the words of the specification. -/
def claim5_pick (units : List BUnit) (rr : ℕ) (d i : ℤ) : Option ℕ :=
  rrScan
    (fun uid =>
      match units[uid]? with
      | some u => claim5_ok u d i
      | none => false)
    rr NUM_UNITS

/-- Portfolio capital: sum(u.capital for u in units). -/
def total_capital (units : List BUnit) : ℚ :=
  (units.map BUnit.capital).sum

/-- The closed-trade record emitted by Bot._exit lines 618-619. -/
def mk_closed (t : Trade) (spot cp pnl : ℚ) (r : String) : ClosedRec :=
  { unit := t.unit, opt_type := t.opt_type, entry_prem := t.entry_prem,
    exit_prem := cp, exit_spot := spot, bars_held := t.bars, pnl := pnl,
    qty := t.qty, lot_size := t.lot_size, reason := r }

/-- The exit pass of Bot._bar lines 562-564: run Bot._exit on every unit
holding a trade, in list order, threading the portfolio day-P&L map
(self.port_dpnl[ts.date()] += pnl, line 616). -/
def bot_exits (units : List BUnit) (dp : ℤ → ℚ) (d : ℤ) (spot : ℚ) (eod : Bool) :
    List BUnit × (ℤ → ℚ) × List ClosedRec :=
  match units with
  | [] => ([], dp, [])
  | u :: rest =>
    match u.trade with
    | none =>
      let res := bot_exits rest dp d spot eod
      (u :: res.1, res.2)
    | some t =>
      let ev := bot_exit_eval t spot eod
      match ev.reason with
      | none =>
        let res := bot_exits rest dp d spot eod
        ({ u with trade := some ev.next } :: res.1, res.2)
      | some r =>
        let pnl := calc_pnl t.entry_prem ev.cp t.lot_size t.qty
        let u1 := u.close pnl d
        let dp1 : ℤ → ℚ := fun x => if x = d then dp x + pnl else dp x
        let res := bot_exits rest dp1 d spot eod
        (u1 :: res.1, res.2.1, mk_closed t spot ev.cp pnl r :: res.2.2)

/-- Engine state of the live bot (class Bot, lines 461-469 plus the
persisted units/rr/month_cap): last_day stores the (day, month) of the
previous processed bar timestamp. -/
structure BotState where
  units : List BUnit
  rr : ℕ
  bar_idx : ℤ
  month_cap : ℚ
  last_day : Option (ℤ × ℤ)
  port_dpnl : ℤ → ℚ

/-- One bar handed to the live engine: its date and month code, weekday,
minutes of the day, closing spot, the enriched signal (get_signal) and the
synthetic premium quote (synth_prem) for this spot — the two values the
external enrichment and pricing helpers deliver. -/
structure BotBarIn where
  day : ℤ
  month : ℤ
  wd : ℕ
  hm : ℕ
  spot : ℚ
  sig : Option OptType
  prem : ℚ

/-- bot.py is_entry_win (lines 439-441): inside the entry window on a
trading day. -/
def is_entry_win (wd hm : ℕ) : Bool :=
  decide (ENTRY_START ≤ hm) && decide (hm ≤ ENTRY_END) && decide (wd < 5)

/-- bot.py is_hard_close (lines 442-443). -/
def is_hard_close (hm : ℕ) : Bool := decide (HARD_CLOSE ≤ hm)

/-- Per-bar processing of the live engine, bot.py Bot._bar lines 522-585:
day/month rollover, bar counting and cooldown ticks, the monthly
drawdown guard (which returns before the exit pass when breached), the
daily loss gate, the exit pass, and the entry resolution.  Logging,
state/equity persistence and the end-of-day summary are side effects with
no influence on decisions and are not modelled. -/
def bot_bar (s : BotState) (b : BotBarIn) : BotState × List ClosedRec :=
  let roll :=
    match s.last_day with
    | some (d0, m0) =>
      if d0 ≠ b.day then
        ((fun _ => (0 : ℚ)),
         if m0 ≠ b.month then total_capital s.units else s.month_cap)
      else (s.port_dpnl, s.month_cap)
    | none => (s.port_dpnl, s.month_cap)
  let dp0 := roll.1
  let mc := roll.2
  let bar_idx := s.bar_idx + 1
  let units0 := s.units.map BUnit.tick
  let tc := total_capital units0
  if (tc - mc) / mc < -MAX_PORT_DD_MONTHLY then
    ({ units := units0, rr := s.rr, bar_idx := bar_idx, month_cap := mc,
       last_day := some (b.day, b.month), port_dpnl := dp0 }, [])
  else
    let port_day_ok := decide (-(TOTAL_CAPITAL * MAX_PORT_DD_DAILY) < dp0 b.day)
    let eod := is_hard_close b.hm
    let ex := bot_exits units0 dp0 b.day b.spot eod
    let ent :=
      if is_entry_win b.wd b.hm && port_day_ok && !eod then
        match b.sig with
        | some sig =>
          let e := bot_entry ex.1 s.rr b.day bar_idx b.prem b.spot sig
          (e.1, e.2.1)
        | none => (ex.1, s.rr)
      else (ex.1, s.rr)
    ({ units := ent.1, rr := ent.2, bar_idx := bar_idx, month_cap := mc,
       last_day := some (b.day, b.month), port_dpnl := ex.2.1 }, ex.2.2)

/-- Synthetic exit premium of the modular variant, strategy.py
estimate_exit_premium (lines 148-159): delta 0.50, gamma 0.00008, theta
entry_prem * 0.0002 per bar held, floored at 5 percent of entry. -/
def estimate_exit_premium (entry_prem entry_spot exit_spot : ℚ) (opt : OptType)
    (bars_held : ℤ) : ℚ :=
  let delta : ℚ := 1 / 2
  let gamma : ℚ := 8 / 100000
  let spot_chg : ℚ := exit_spot - entry_spot
  let prem_chg : ℚ := sign_of opt * (delta * spot_chg + (1 / 2) * gamma * spot_chg ^ 2)
  let theta : ℚ := entry_prem * (2 / 10000) * (bars_held : ℚ)
  max (entry_prem + prem_chg - theta) (entry_prem * (5 / 100))

/-- An open trade of the modular backtest (the dict built in
Backtester.run lines 374-383).  entry_time is bookkeeping and omitted. -/
structure BTrade where
  bar_idx : ℤ
  entry_spot : ℚ
  entry_prem : ℚ
  opt_type : OptType
  strike : ℚ
  lot_size : ℚ
  qty : ℕ
  deriving DecidableEq, Repr

/-- A capital unit of the modular backtest, backtest.py BacktestUnit
(lines 202-217). -/
structure BTUnit where
  uid : ℕ
  capital : ℚ
  trade : Option BTrade
  streak : ℕ
  cooldown : ℕ
  last_bar : ℤ
  deriving DecidableEq, Repr

instance : Inhabited BTUnit :=
  ⟨{ uid := 0, capital := cfg_UNIT_SIZE, trade := none, streak := 0,
     cooldown := 0, last_bar := -99 }⟩

/-- backtest.py BacktestUnit.free (lines 211-213). -/
def BTUnit.free (u : BTUnit) : Bool := u.trade.isNone && u.cooldown == 0

/-- backtest.py BacktestUnit.tick (lines 215-217). -/
def BTUnit.tick (u : BTUnit) : BTUnit :=
  if 0 < u.cooldown then { u with cooldown := u.cooldown - 1 } else u

/-- Exit decision of the modular backtest, Backtester.run lines 300-321:
bars held is the bar-index difference; past the minimum hold the order is
SL, TP, TIME_EXIT; EOD applies only if no earlier reason matched. -/
def bt_exit_decide (t : BTrade) (bar_idx : ℤ) (spot : ℚ) (eod : Bool) :
    Option String :=
  let bars_held := bar_idx - t.bar_idx
  let exit_prem :=
    estimate_exit_premium t.entry_prem t.entry_spot spot t.opt_type bars_held
  let sl_level := t.entry_prem * (1 - cfg_SL_DROP_PCT)
  let tp_level := t.entry_prem * (1 + cfg_TP_GAIN_PCT)
  let r0 : Option String :=
    if cfg_MIN_HOLD_BARS ≤ bars_held then
      if exit_prem ≤ sl_level then some "SL"
      else if tp_level ≤ exit_prem then some "TP"
      else if cfg_TIME_EXIT_BARS ≤ bars_held then some "TIME_EXIT"
      else none
    else none
  if r0.isNone && eod then some "EOD" else r0

/-- Closed-trade record of the modular backtest (Backtester.run lines
340-356), restricted to decision-relevant fields. -/
structure BTClosed where
  unit : ℕ
  opt_type : OptType
  entry_prem : ℚ
  exit_prem : ℚ
  exit_spot : ℚ
  bars_held : ℤ
  pnl : ℚ
  qty : ℕ
  lot_size : ℚ
  reason : String
  deriving DecidableEq, Repr

/-- One-unit exit step of Backtester.run lines 297-358: if a reason
matches, add the P&L to the unit capital, drop the trade and update
streak and cooldown (lines 326-338). -/
def bt_exit_unit (u : BTUnit) (bar_idx : ℤ) (spot : ℚ) (eod : Bool) :
    BTUnit × Option BTClosed :=
  match u.trade with
  | none => (u, none)
  | some t =>
    match bt_exit_decide t bar_idx spot eod with
    | none => (u, none)
    | some r =>
      let bars_held := bar_idx - t.bar_idx
      let exit_prem :=
        estimate_exit_premium t.entry_prem t.entry_spot spot t.opt_type bars_held
      let pnl := calc_pnl t.entry_prem exit_prem t.lot_size t.qty
      let u1 : BTUnit := { u with capital := u.capital + pnl, trade := none }
      let u2 : BTUnit :=
        if pnl < 0 then
          if cfg_LOSS_STREAK_MAX ≤ u1.streak + 1 then
            { u1 with cooldown := cfg_COOLDOWN_BARS, streak := 0 }
          else
            { u1 with streak := u1.streak + 1 }
        else
          { u1 with streak := 0 }
      (u2, some { unit := u.uid, opt_type := t.opt_type, entry_prem := t.entry_prem,
                  exit_prem := exit_prem, exit_spot := spot, bars_held := bars_held,
                  pnl := pnl, qty := t.qty, lot_size := t.lot_size, reason := r })

/-- Exit pass of Backtester.run: every unit in list order. -/
def bt_exits (units : List BTUnit) (bar_idx : ℤ) (spot : ℚ) (eod : Bool) :
    List BTUnit × List BTClosed :=
  match units with
  | [] => ([], [])
  | u :: rest =>
    let r := bt_exit_unit u bar_idx spot eod
    let res := bt_exits rest bar_idx spot eod
    (r.1 :: res.1, match r.2 with | some c => c :: res.2 | none => res.2)

/-- backtest.py Backtester.total_cap (lines 234-235). -/
def bt_total_cap (units : List BTUnit) : ℚ :=
  (units.map BTUnit.capital).sum

/-- backtest.py Backtester._halted (lines 419-420): the portfolio
drawdown halt. -/
def bt_halted (units : List BTUnit) : Bool :=
  decide (bt_total_cap units < cfg_TOTAL_CAPITAL * (1 - cfg_MAX_PORT_DD))

/-- Unit id selected by backtest.py Backtester.get_unit (lines 237-244):
free and past the signal cooldown. -/
def bt_get_unit (units : List BTUnit) (rr : ℕ) (bar_idx : ℤ) : Option ℕ :=
  rrScan
    (fun uid =>
      match units[uid]? with
      | some u => u.free && !(decide (bar_idx - u.last_bar < cfg_SIGNAL_COOLDOWN))
      | none => false)
    rr cfg_NUM_UNITS

/-- Engine state of the modular backtest (Backtester, lines 222-232). -/
structure BTState where
  units : List BTUnit
  rr : ℕ
  bar_idx : ℤ

/-- One bar handed to the modular backtest loop: minutes of the day,
closing spot, the enriched signal and the synthetic premium quote
(synth_premium) for this spot. -/
structure BTBarIn where
  hm : ℕ
  spot : ℚ
  sig : Option OptType
  prem : ℚ

/-- Per-bar processing of the modular backtest, Backtester.run lines
285-395: bar counting, cooldown ticks, the exit pass, then an entry when
the bar is inside the entry window, not at end of day and the portfolio
drawdown halt is not active.  get_unit advances the rotating pointer even
if the subsequent affordability check fails, exactly as in the source.
The per-day statistics and equity curve are reporting only. -/
def bt_bar (s : BTState) (b : BTBarIn) : BTState × List BTClosed :=
  let bar_idx := s.bar_idx + 1
  let units0 := s.units.map BTUnit.tick
  let eod := decide (cfg_HARD_CLOSE ≤ b.hm)
  let ex := bt_exits units0 bar_idx b.spot eod
  let ent :=
    if decide (cfg_ENTRY_START ≤ b.hm) && decide (b.hm ≤ cfg_ENTRY_END)
        && !eod && !(bt_halted ex.1) then
      match b.sig with
      | some sig =>
        match bt_get_unit ex.1 s.rr bar_idx with
        | some uid =>
          let u := ex.1[uid]?.getD default
          if b.prem * cfg_LOT_SIZE ≤ u.capital * cfg_MAX_COST_PCT then
            (ex.1.set uid
              { u with
                trade := some { bar_idx := bar_idx, entry_spot := b.spot,
                                entry_prem := round2 b.prem, opt_type := sig,
                                strike := strike_calc b.spot,
                                lot_size := cfg_LOT_SIZE, qty := 1 },
                last_bar := bar_idx },
             (uid + 1) % cfg_NUM_UNITS)
          else (ex.1, (uid + 1) % cfg_NUM_UNITS)
        | none => (ex.1, s.rr)
      | none => (ex.1, s.rr)
    else (ex.1, s.rr)
  ({ units := ent.1, rr := ent.2, bar_idx := bar_idx }, ex.2)

/-- A capital unit of units.py (class TradeUnit, lines 15-81).  The trade
dict is opaque to units.py; the Trade record stands in for it.  day_pnl
is the defaultdict keyed by date. -/
structure TradeUnit where
  uid : ℕ
  capital : ℚ
  trade : Option Trade
  streak : ℕ
  cooldown : ℕ
  n_trades : ℕ
  last_bar : ℤ
  day_pnl : ℤ → ℚ

instance : Inhabited TradeUnit :=
  ⟨{ uid := 0, capital := cfg_UNIT_SIZE, trade := none, streak := 0, cooldown := 0,
     n_trades := 0, last_bar := -99, day_pnl := fun _ => 0 }⟩

/-- units.py TradeUnit.free (lines 26-28). -/
def TradeUnit.free (u : TradeUnit) : Bool := u.trade.isNone && u.cooldown == 0

/-- units.py TradeUnit.day_ok (lines 30-31). -/
def TradeUnit.day_ok (u : TradeUnit) (d : ℤ) : Bool :=
  decide (-(cfg_UNIT_SIZE * cfg_MAX_UNIT_DAY_LOSS) < u.day_pnl d)

/-- units.py TradeUnit.enter (lines 33-36). -/
def TradeUnit.enter (u : TradeUnit) (t : Trade) (bar_idx : ℤ) : TradeUnit :=
  { u with trade := some t, n_trades := u.n_trades + 1, last_bar := bar_idx }

/-- units.py TradeUnit.close (lines 38-51): add the P&L to capital and
the day's P&L, drop the trade, then update loss streak and cooldown. -/
def TradeUnit.close (u : TradeUnit) (pnl : ℚ) (d : ℤ) : TradeUnit :=
  let u1 : TradeUnit :=
    { u with capital := u.capital + pnl,
             day_pnl := fun x => if x = d then u.day_pnl x + pnl else u.day_pnl x,
             trade := none }
  if pnl < 0 then
    if cfg_LOSS_STREAK_MAX ≤ u1.streak + 1 then
      { u1 with cooldown := cfg_COOLDOWN_BARS, streak := 0 }
    else
      { u1 with streak := u1.streak + 1 }
  else
    { u1 with streak := 0 }

/-- units.py TradeUnit.tick (lines 53-55). -/
def TradeUnit.tick (u : TradeUnit) : TradeUnit :=
  if 0 < u.cooldown then { u with cooldown := u.cooldown - 1 } else u

/-- units.py UnitManager state (lines 84-104): the unit list and the
rotating pointer rr_ptr. -/
structure Mgr where
  units : List TradeUnit
  rr_ptr : ℕ

/-- Acceptance test of one attempt of UnitManager.get_next_free
(lines 119-127): free, day_ok and past the signal cooldown. -/
def Mgr.scan_ok (m : Mgr) (d i : ℤ) (uid : ℕ) : Bool :=
  match m.units[uid]? with
  | some u => u.free && u.day_ok d && !(decide (i - u.last_bar < cfg_SIGNAL_COOLDOWN))
  | none => false

/-- units.py UnitManager.get_next_free (lines 118-130): scan from the
rotating pointer, return the first acceptable unit and advance the
pointer to one past it. -/
def Mgr.get_next_free (m : Mgr) (d i : ℤ) : Option (TradeUnit × Mgr) :=
  match rrScan (m.scan_ok d i) m.rr_ptr cfg_NUM_UNITS with
  | some uid =>
    match m.units[uid]? with
    | some u => some (u, { m with rr_ptr := (uid + 1) % cfg_NUM_UNITS })
    | none => none
  | none => none

/-- One bar as seen by a unit that is holding a position: the closing
spot and the end-of-day flag. -/
structure TickIn where
  spot : ℚ
  eod : Bool
  deriving DecidableEq, Repr

/-- Life of one held position under the live engine: Bot._exit applied
bar after bar until a reason matches, returning the emitted record. -/
def bot_hold_trace : Trade → List TickIn → Option ClosedRec
  | _, [] => none
  | t, i :: rest =>
    let ev := bot_exit_eval t i.spot i.eod
    match ev.reason with
    | some r =>
      some (mk_closed t i.spot ev.cp (calc_pnl t.entry_prem ev.cp t.lot_size t.qty) r)
    | none => bot_hold_trace ev.next rest

/-- Life of one held position under the modular backtest: the engine bar
counter advances once per bar and the exit decision of Backtester.run is
applied until a reason matches; the result is the reason and the recorded
bars_held. -/
def bt_hold_trace : BTrade → ℤ → List TickIn → Option (String × ℤ)
  | _, _, [] => none
  | t, idx, i :: rest =>
    match bt_exit_decide t (idx + 1) i.spot i.eod with
    | some r => some (r, (idx + 1) - t.bar_idx)
    | none => bt_hold_trace t (idx + 1) rest

/-- Default closed record, used only to read off the head of a computed
trade list in concrete witnesses. -/
instance : Inhabited ClosedRec :=
  ⟨{ unit := 0, opt_type := .CE, entry_prem := 0, exit_prem := 0, exit_spot := 0,
     bars_held := 0, pnl := 0, qty := 0, lot_size := 0, reason := "" }⟩

instance : Inhabited BTClosed :=
  ⟨{ unit := 0, opt_type := .CE, entry_prem := 0, exit_prem := 0, exit_spot := 0,
     bars_held := 0, pnl := 0, qty := 0, lot_size := 0, reason := "" }⟩

def c9w_units : List BUnit :=
  [{ uid := 0, capital := 20000, trade := some
       { unit := 0, bars := 2, peak := 100, entry_spot := 25000, entry_prem := 100,
         opt_type := .CE, qty := 1, lot_size := 65, strike := 25000 },
     streak := 0, cooldown := 0, n_trades := 1, last_bar := 0,
     day_trades := fun _ => 0, day_pnl := fun _ => 0 }]

def c9w_rec : ClosedRec := ((bot_exits c9w_units (fun _ => 0) 0 24938 false).2.2).headI

def c9w_units2 : List BTUnit :=
  [{ uid := 0, capital := 20000, trade := some
       { bar_idx := 0, entry_spot := 25000, entry_prem := 100, opt_type := .CE,
         strike := 25000, lot_size := 75, qty := 1 },
     streak := 0, cooldown := 0, last_bar := 0 }]

def c9w_rec2 : BTClosed := ((bt_exits c9w_units2 2 24930 false).2).headI

def c2w_t : Trade :=
  { unit := 0, bars := 2, peak := 100, entry_spot := 25000, entry_prem := 100,
    opt_type := .CE, qty := 1, lot_size := 65, strike := 25000 }

def c2w_bt : BTrade :=
  { bar_idx := 0, entry_spot := 25000, entry_prem := 100, opt_type := .CE,
    strike := 25000, lot_size := 75, qty := 1 }

def c3w_t : Trade :=
  { unit := 0, bars := 0, peak := 100, entry_spot := 25000, entry_prem := 100,
    opt_type := .CE, qty := 1, lot_size := 65, strike := 25000 }

def c3w_ticks : List TickIn := List.replicate 9 { spot := 25000, eod := false }

def c3w_rec : ClosedRec := (bot_hold_trace c3w_t c3w_ticks).getD default

def c3w_bt : BTrade :=
  { bar_idx := 0, entry_spot := 25000, entry_prem := 100, opt_type := .CE,
    strike := 25000, lot_size := 75, qty := 1 }

def c3w_ticks2 : List TickIn := List.replicate 6 { spot := 25000, eod := false }

def c3w_rc : String × ℤ := (bt_hold_trace c3w_bt 0 c3w_ticks2).getD ("", 0)

def c5_units : List BUnit :=
  [{ uid := 0, capital := 100, trade := none, streak := 0, cooldown := 0,
     n_trades := 0, last_bar := -99, day_trades := fun _ => 0, day_pnl := fun _ => 0 },
   { uid := 1, capital := 20000, trade := none, streak := 0, cooldown := 0,
     n_trades := 0, last_bar := -99, day_trades := fun _ => 0, day_pnl := fun _ => 0 },
   { uid := 2, capital := 20000, trade := none, streak := 0, cooldown := 0,
     n_trades := 0, last_bar := -99, day_trades := fun _ => 0, day_pnl := fun _ => 0 },
   { uid := 3, capital := 20000, trade := none, streak := 0, cooldown := 0,
     n_trades := 0, last_bar := -99, day_trades := fun _ => 0, day_pnl := fun _ => 0 },
   { uid := 4, capital := 20000, trade := none, streak := 0, cooldown := 0,
     n_trades := 0, last_bar := -99, day_trades := fun _ => 0, day_pnl := fun _ => 0 }]

def c5w_units : List BUnit :=
  [{ uid := 0, capital := 20000, trade := none, streak := 0, cooldown := 0,
     n_trades := 0, last_bar := -99, day_trades := fun _ => 0, day_pnl := fun _ => 0 },
   { uid := 1, capital := 20000, trade := none, streak := 0, cooldown := 0,
     n_trades := 0, last_bar := -99, day_trades := fun _ => 0, day_pnl := fun _ => 0 },
   { uid := 2, capital := 20000, trade := none, streak := 0, cooldown := 0,
     n_trades := 0, last_bar := -99, day_trades := fun _ => 0, day_pnl := fun _ => 0 },
   { uid := 3, capital := 20000, trade := none, streak := 0, cooldown := 0,
     n_trades := 0, last_bar := -99, day_trades := fun _ => 0, day_pnl := fun _ => 0 },
   { uid := 4, capital := 20000, trade := none, streak := 0, cooldown := 0,
     n_trades := 0, last_bar := -99, day_trades := fun _ => 0, day_pnl := fun _ => 0 }]

def c8w_u : TradeUnit :=
  { uid := 0, capital := 20000, trade := none, streak := 1, cooldown := 0,
    n_trades := 2, last_bar := 0, day_pnl := fun _ => 0 }

def c8w_m : Mgr :=
  { units :=
      [{ uid := 0, capital := 20000, trade := none, streak := 0, cooldown := 0,
         n_trades := 0, last_bar := -99, day_pnl := fun _ => 0 },
       { uid := 1, capital := 20000, trade := none, streak := 0, cooldown := 0,
         n_trades := 0, last_bar := -99, day_pnl := fun _ => 0 },
       { uid := 2, capital := 20000, trade := none, streak := 0, cooldown := 0,
         n_trades := 0, last_bar := -99, day_pnl := fun _ => 0 },
       { uid := 3, capital := 20000, trade := none, streak := 0, cooldown := 0,
         n_trades := 0, last_bar := -99, day_pnl := fun _ => 0 },
       { uid := 4, capital := 20000, trade := none, streak := 0, cooldown := 0,
         n_trades := 0, last_bar := -99, day_pnl := fun _ => 0 }],
    rr_ptr := 0 }

def c8w_res : TradeUnit × Mgr := (c8w_m.get_next_free 0 100).getD (default, c8w_m)

/-- The per-unit eligibility test of UnitManager.get_next_free
(units.py lines 122-127): free, day_ok, and past the signal cooldown. -/
def TradeUnit.eligible (u : TradeUnit) (d i : ℤ) : Bool :=
  u.free && u.day_ok d && !(decide (i - u.last_bar < cfg_SIGNAL_COOLDOWN))

def c7_held : Trade :=
  { unit := 0, bars := 1, peak := 100, entry_spot := 25000, entry_prem := 100,
    opt_type := .CE, qty := 1, lot_size := 75, strike := 25000 }

def c7_busy (n : ℕ) : TradeUnit :=
  { uid := n, capital := 20000, trade := some c7_held, streak := 0, cooldown := 0,
    n_trades := 1, last_bar := -99, day_pnl := fun _ => 0 }

def c7_free1 : TradeUnit :=
  { uid := 1, capital := 20000, trade := none, streak := 0, cooldown := 0,
    n_trades := 0, last_bar := -99, day_pnl := fun _ => 0 }

def c7_m0 : Mgr :=
  { units := [c7_busy 0, c7_free1, c7_busy 2, c7_busy 3, c7_busy 4], rr_ptr := 0 }

def c7_m1 : Mgr :=
  { units := [c7_busy 0, c7_free1, c7_busy 2, c7_busy 3, c7_busy 4], rr_ptr := 2 }

def c7w_unit (n : ℕ) : TradeUnit :=
  { uid := n, capital := 20000, trade := none, streak := 0, cooldown := 0,
    n_trades := 0, last_bar := -99, day_pnl := fun _ => 0 }

def c7w_units : List TradeUnit :=
  [c7w_unit 0, c7w_unit 1, c7w_unit 2, c7w_unit 3, c7w_unit 4]

def c7w_ms (k : ℕ) : Mgr := { units := c7w_units, rr_ptr := k % 5 }

def c6_t : Trade :=
  { unit := 0, bars := 2, peak := 100, entry_spot := 25000, entry_prem := 100,
    opt_type := .CE, qty := 1, lot_size := 65, strike := 25000 }

def c6_u0 : BUnit :=
  { uid := 0, capital := 5000, trade := some c6_t, streak := 0, cooldown := 0,
    n_trades := 1, last_bar := 0, day_trades := fun _ => 0, day_pnl := fun _ => 0 }

def c6_free (n : ℕ) : BUnit :=
  { uid := n, capital := 20000, trade := none, streak := 0, cooldown := 0,
    n_trades := 0, last_bar := -99, day_trades := fun _ => 0, day_pnl := fun _ => 0 }

def c6_s : BotState :=
  { units := [c6_u0, c6_free 1, c6_free 2, c6_free 3, c6_free 4], rr := 0,
    bar_idx := 10, month_cap := 100000, last_day := some (0, 0),
    port_dpnl := fun _ => 0 }

def c6_b : BotBarIn :=
  { day := 0, month := 0, wd := 0, hm := 600, spot := 24938, sig := none,
    prem := 100 }

def c6w_s2 : BotState :=
  { units := [c6_u0, c6_free 1, c6_free 2, c6_free 3, c6_free 4], rr := 0,
    bar_idx := 10, month_cap := 85000, last_day := some (0, 0),
    port_dpnl := fun _ => -6000 }

def c6w_bts : BTState :=
  { units :=
      [{ uid := 0, capital := 17000, trade := none, streak := 0, cooldown := 0,
         last_bar := -99 },
       { uid := 1, capital := 17000, trade := none, streak := 0, cooldown := 0,
         last_bar := -99 },
       { uid := 2, capital := 17000, trade := none, streak := 0, cooldown := 0,
         last_bar := -99 },
       { uid := 3, capital := 17000, trade := none, streak := 0, cooldown := 0,
         last_bar := -99 },
       { uid := 4, capital := 17000, trade := none, streak := 0, cooldown := 0,
         last_bar := -99 }],
    rr := 0, bar_idx := 10 }

def c6w_btb : BTBarIn := { hm := 600, spot := 25000, sig := some .CE, prem := 100 }

/-- One event seen by a single capital unit of bot.py during a bar of
Bot._bar: a cooldown tick (Unit.tick), a bar while possibly holding (the
Bot._exit evaluation and close), or an entry attempt that reached this
unit in the scan of Bot._entry (Unit.can_enter, the affordability check,
the quantity sizing and Unit.enter). -/
inductive UnitEvent where
  | tick : UnitEvent
  | bar (spot : ℚ) (eod : Bool) (d : ℤ) : UnitEvent
  | sig (ep spot : ℚ) (s : OptType) (d i : ℤ) : UnitEvent

/-- Effect of one event on one unit, assembled from bot.py Unit.tick,
Bot._exit plus Unit.close, and Bot._entry plus Unit.enter. -/
def ustep (u : BUnit) : UnitEvent → BUnit
  | .tick => u.tick
  | .bar spot eod d =>
    match u.trade with
    | none => u
    | some t =>
      let ev := bot_exit_eval t spot eod
      match ev.reason with
      | none => { u with trade := some ev.next }
      | some _ => u.close (calc_pnl t.entry_prem ev.cp t.lot_size t.qty) d
  | .sig ep spot s d i =>
    if u.can_enter d i && !(decide (u.capital < ep * LOT_SIZE)) then
      u.enter (mk_trade u.uid ep spot s (qty_calc u.capital ep)) i d
    else u

/-- Premium quotes delivered to entry attempts are positive multiples of
one tenth, as synth_prem produces (it rounds the Brenner value to one
decimal and floors it at 0.2 percent of a positive spot). -/
def eventOK : UnitEvent → Prop
  | .sig ep _ _ _ _ => 0 < ep ∧ ∃ k : ℤ, ep * 10 = (k : ℚ)
  | _ => True

/-- Invariant carried through the unit lifecycle: nonnegative capital,
and any held position cost at most the capital and is an exact multiple
of 1/100. -/
def capInv (u : BUnit) : Prop :=
  0 ≤ u.capital ∧ ∀ t, u.trade = some t →
    t.entry_prem * t.lot_size * (t.qty : ℚ) ≤ u.capital ∧
    ∃ m : ℤ, t.entry_prem * t.lot_size * (t.qty : ℚ) * 100 = (m : ℚ)

def c10w_u : BUnit :=
  { uid := 0, capital := 20000, trade := none, streak := 0, cooldown := 0,
    n_trades := 0, last_bar := -99, day_trades := fun _ => 0, day_pnl := fun _ => 0 }

def c10w_evs : List UnitEvent :=
  [UnitEvent.sig 100 25000 .CE 0 5, UnitEvent.tick,
   UnitEvent.bar 24000 true 0]

theorem intFloor_eq_ratFloor (q : ℚ) : ⌊q⌋ = q.floor :=
  Rat.floor_def.trans (Rat.floor_def' q).symm

theorem round2_eq_round (x : ℚ) : round2 x = ((round (100 * x) : ℤ) : ℚ) / 100 := by
  rw [round2, round_eq, intFloor_eq_ratFloor]

theorem round2_mono {x y : ℚ} (h : x ≤ y) : round2 x ≤ round2 y := by
  rw [round2_eq_round, round2_eq_round]
  have h2 : round (100 * x) ≤ round (100 * y) := by
    rw [round_eq, round_eq]
    exact Int.floor_le_floor (by linarith)
  have h3 : ((round (100 * x) : ℤ) : ℚ) ≤ ((round (100 * y) : ℤ) : ℚ) := by
    exact_mod_cast h2
  linarith

theorem round2_int_div (k : ℤ) : round2 ((k : ℚ) / 100) = (k : ℚ) / 100 := by
  rw [round2_eq_round]
  have h : (100 : ℚ) * ((k : ℚ) / 100) = (k : ℚ) := by ring
  rw [h, round_intCast]

/-- The loss floor of calc_pnl: whenever the premium paid
ep * lot * qty is an exact multiple of 1/100 (entry premiums are rounded
to one decimal by synth_prem, lot sizes and quantities are integers), the
returned P&L is at least the negated premium paid. -/
theorem calc_pnl_ge (ep xp lot : ℚ) (qty : ℕ)
    (h : ∃ k : ℤ, ep * lot * (qty : ℚ) * 100 = (k : ℚ)) :
    -(ep * lot * (qty : ℚ)) ≤ calc_pnl ep xp lot qty := by
  obtain ⟨k, hk⟩ := h
  have hc : ep * lot * (qty : ℚ) = (k : ℚ) / 100 := by
    field_simp
    linarith
  unfold calc_pnl
  have h1 : -(ep * lot * (qty : ℚ)) ≤
      max ((xp - ep) * lot * (qty : ℚ) - (ep + xp) * (3 / 1000) * lot * (qty : ℚ))
        (-(ep * lot * (qty : ℚ))) := le_max_right _ _
  have h2 := round2_mono h1
  have h3 : round2 (-(ep * lot * (qty : ℚ))) = -(ep * lot * (qty : ℚ)) := by
    rw [hc]
    have : -((k : ℚ) / 100) = ((-k : ℤ) : ℚ) / 100 := by push_cast; ring
    rw [this, round2_int_div]
  rw [h3] at h2
  exact h2

theorem rrScanAux_some {p : ℕ → Bool} {rr n uid : ℕ} :
    ∀ {a r : ℕ}, rrScanAux p rr n a r = some uid →
      p uid = true ∧ ∃ k, a ≤ k ∧ k < a + r ∧ uid = (rr + k) % n ∧
        ∀ j, a ≤ j → j < k → p ((rr + j) % n) = false := by
  intro a r
  induction r generalizing a with
  | zero => intro h; simp [rrScanAux] at h
  | succ r ih =>
    intro h
    rw [rrScanAux] at h
    by_cases hp : p ((rr + a) % n) = true
    · rw [if_pos hp] at h
      obtain rfl : (rr + a) % n = uid := by injection h
      refine ⟨hp, a, le_refl a, by omega, rfl, ?_⟩
      intro j hj1 hj2
      omega
    · rw [if_neg hp] at h
      obtain ⟨hpu, k, hk1, hk2, hk3, hk4⟩ := ih h
      refine ⟨hpu, k, by omega, by omega, hk3, ?_⟩
      intro j hj1 hj2
      by_cases hja : j = a
      · subst hja
        exact Bool.not_eq_true _ ▸ (by simpa using hp)
      · exact hk4 j (by omega) hj2

theorem rrScan_some {p : ℕ → Bool} {rr n uid : ℕ} (h : rrScan p rr n = some uid) :
    p uid = true ∧ ∃ k, k < n ∧ uid = (rr + k) % n ∧
      ∀ j, j < k → p ((rr + j) % n) = false := by
  obtain ⟨hpu, k, _, hk2, hk3, hk4⟩ := rrScanAux_some h
  exact ⟨hpu, k, by omega, hk3, fun j hj => hk4 j (Nat.zero_le j) hj⟩

theorem rrScan_head {p : ℕ → Bool} {rr n : ℕ} (hn : 0 < n) (hp : p (rr % n) = true) :
    rrScan p rr n = some (rr % n) := by
  unfold rrScan
  obtain ⟨m, rfl⟩ : ∃ m, n = m + 1 := ⟨n - 1, by omega⟩
  rw [rrScanAux]
  simp only [Nat.add_zero]
  rw [if_pos hp]

theorem bot_exit_eval_next_bars (t : Trade) (spot : ℚ) (eod : Bool) :
    (bot_exit_eval t spot eod).next.bars = t.bars + 1 := rfl

theorem bot_exit_eval_none_bars {t : Trade} {spot : ℚ} {eod : Bool}
    (h : (bot_exit_eval t spot eod).reason = none) :
    t.bars + 1 ≤ TIME_EXIT_BARS := by
  unfold bot_exit_eval at h
  simp only at h
  split_ifs at h with h1 h2 h3 h4 h5 h6
  all_goals simp_all [MIN_HOLD_BARS, TIME_EXIT_BARS]
  all_goals omega

theorem bot_exit_eval_time_bars {t : Trade} {spot : ℚ} {eod : Bool}
    (h : (bot_exit_eval t spot eod).reason = some "TIME") :
    TIME_EXIT_BARS ≤ t.bars := by
  unfold bot_exit_eval at h
  simp only at h
  split_ifs at h <;> simp_all

theorem bt_exit_decide_none_bars {t : BTrade} {bar_idx : ℤ} {spot : ℚ} {eod : Bool}
    (h : bt_exit_decide t bar_idx spot eod = none) :
    bar_idx - t.bar_idx < cfg_TIME_EXIT_BARS := by
  unfold bt_exit_decide at h
  simp only at h
  split_ifs at h with h1 h2 h3 h4 h5
  all_goals simp_all [cfg_MIN_HOLD_BARS, cfg_TIME_EXIT_BARS]
  all_goals omega

theorem bt_exit_decide_time_bars {t : BTrade} {bar_idx : ℤ} {spot : ℚ} {eod : Bool}
    (h : bt_exit_decide t bar_idx spot eod = some "TIME_EXIT") :
    cfg_TIME_EXIT_BARS ≤ bar_idx - t.bar_idx := by
  unfold bt_exit_decide at h
  simp only at h
  split_ifs at h <;> simp_all

/-- Claim C1, counterexample.  The live engine of bot.py and the backtest
engine of backtest.py do not produce identical trade decisions from
identical starting state on an identical bar: for a position entered at
premium 100 and spot 25000 (call side) and held for six bars, on a bar
with unchanged spot 25000 and no end-of-day flag the live engine keeps
holding (no exit reason) while backtest.py exits with TIME_EXIT, because
the two engines read different stop/target/time thresholds and different
pricing models from their separate constant blocks. -/
theorem C1_live_vs_backtest_counterexample :
    (bot_exit_eval
      { unit := 0, bars := 6, peak := 100, entry_spot := 25000, entry_prem := 100,
        opt_type := .CE, qty := 1, lot_size := 65, strike := 25000 }
      25000 false).reason = none
  ∧ bt_exit_decide
      { bar_idx := 0, entry_spot := 25000, entry_prem := 100, opt_type := .CE,
        strike := 25000, lot_size := 75, qty := 1 }
      6 25000 false = some "TIME_EXIT" := by
  constructor
  · decide
  · decide

/-- Claim C1, amended: within bot.py, the per-bar exit decision and the
entry selection of the live engine (Bot._exit, Bot._entry) and of the
in-file backtest (run_backtest) are the same functions of state and bar,
so those two drivers produce identical decisions on identical inputs; the
equivalence does not extend to backtest.py, whose engine diverges (see
the counterexample). -/
theorem C1_live_backtest_kernel_equality :
    (∀ (t : Trade) (spot : ℚ) (eod : Bool),
       bt9_exit_eval t spot eod = bot_exit_eval t spot eod)
  ∧ (∀ (units : List BUnit) (rr : ℕ) (d i : ℤ) (ep : ℚ),
       bt9_entry_pick units rr d i ep = bot_entry_pick units rr d i ep)
  ∧ (∀ (c e : ℚ), bt9_qty c e = qty_calc c e) :=
  ⟨fun _ _ _ => rfl, fun _ _ _ _ _ => rfl, fun _ _ => rfl⟩

/-- Claim C4: for every closed trade the computed P&L is at least the
negated premium paid, pnl >= -entryPremium * lotSize * quantity.  The
hypothesis records that the premium paid is an exact multiple of 1/100,
which holds for every trade the engines produce: entry premiums are
rounded to one decimal by synth_prem, lot sizes and quantities are
integers. -/
theorem C4_max_loss_floor (ep xp lot : ℚ) (qty : ℕ)
    (h : ∃ k : ℤ, ep * lot * (qty : ℚ) * 100 = (k : ℚ)) :
    -(ep * lot * (qty : ℚ)) ≤ calc_pnl ep xp lot qty :=
  calc_pnl_ge ep xp lot qty h

/-- Witness for C4 at entry premium 100, exit premium 0, lot 65, two
lots: the loss is floored at the premium paid, 13000. -/
theorem C4_max_loss_floor_witness :
    -((100 : ℚ) * 65 * ((2 : ℕ) : ℚ)) ≤ calc_pnl 100 0 65 2 :=
  C4_max_loss_floor 100 0 65 2 ⟨1300000, by norm_num⟩

theorem bot_exit_eval_reason_mem {t : Trade} {spot : ℚ} {eod : Bool} {r : String}
    (h : (bot_exit_eval t spot eod).reason = some r) :
    r ∈ (["SL", "TP", "TRAIL", "TIME", "EOD"] : List String) := by
  unfold bot_exit_eval at h
  simp only at h
  split_ifs at h <;> simp_all

theorem bt_exit_decide_reason_mem {t : BTrade} {bar_idx : ℤ} {spot : ℚ} {eod : Bool}
    {r : String} (h : bt_exit_decide t bar_idx spot eod = some r) :
    r ∈ (["SL", "TP", "TIME_EXIT", "EOD"] : List String) := by
  unfold bt_exit_decide at h
  simp only at h
  split_ifs at h <;> simp_all

theorem bot_exits_reason_mem {units : List BUnit} {dp : ℤ → ℚ} {d : ℤ} {spot : ℚ}
    {eod : Bool} {c : ClosedRec} (h : c ∈ (bot_exits units dp d spot eod).2.2) :
    c.reason ∈ (["SL", "TP", "TRAIL", "TIME", "EOD"] : List String) := by
  induction units generalizing dp with
  | nil => simp [bot_exits] at h
  | cons u rest ih =>
    rcases hu : u.trade with _ | t
    · rw [bot_exits] at h
      simp only [hu] at h
      exact ih h
    · rcases hr : (bot_exit_eval t spot eod).reason with _ | r
      · rw [bot_exits] at h
        simp only [hu, hr] at h
        exact ih h
      · rw [bot_exits] at h
        simp only [hu, hr, List.mem_cons] at h
        rcases h with h | h
        · subst h
          exact bot_exit_eval_reason_mem hr
        · exact ih h

theorem bt_exits_reason_mem {units : List BTUnit} {bar_idx : ℤ} {spot : ℚ}
    {eod : Bool} {c : BTClosed} (h : c ∈ (bt_exits units bar_idx spot eod).2) :
    c.reason ∈ (["SL", "TP", "TIME_EXIT", "EOD"] : List String) := by
  induction units with
  | nil => simp [bt_exits] at h
  | cons u rest ih =>
    rw [bt_exits] at h
    rcases hu : u.trade with _ | t
    · simp only [bt_exit_unit, hu] at h
      exact ih h
    · rcases hr : bt_exit_decide t bar_idx spot eod with _ | r
      · simp only [bt_exit_unit, hu, hr] at h
        exact ih h
      · simp only [bt_exit_unit, hu, hr, List.mem_cons] at h
        rcases h with h | h
        · subst h
          exact bt_exit_decide_reason_mem hr
        · exact ih h

/-- Claim C9, counterexample.  The live engine emits closed trades whose
exit reason is TRAIL, a fifth value outside the claimed four: a call
position entered at premium 100, peak premium 150, held 3 bars, on a bar
with spot 25016.1 (current premium about 108, below the trail lock level
112.5 but above the stop level 70 and below the target 160) closes with
reason TRAIL. -/
theorem C9_exit_reason_counterexample :
    ((bot_exits
        [{ uid := 0, capital := 20000, trade := some
             { unit := 0, bars := 3, peak := 150, entry_spot := 25000,
               entry_prem := 100, opt_type := .CE, qty := 1, lot_size := 65,
               strike := 25000 },
           streak := 0, cooldown := 0, n_trades := 1, last_bar := 0,
           day_trades := fun _ => 0, day_pnl := fun _ => 0 }]
        (fun _ => 0) 0 (25000 + 161 / 10) false).2.2.map ClosedRec.reason)
      = ["TRAIL"]
  ∧ "TRAIL" ∉ (["SL", "TP", "TIME", "EOD"] : List String) := by
  constructor
  · decide
  · decide

/-- Claim C9, amended: every closed-trade record emitted by the live
engine of bot.py carries a reason from the five values SL, TP, TRAIL,
TIME, EOD, and every record emitted by backtest.py carries one of the
four values SL, TP, TIME_EXIT, EOD; the original four-value claim fails
only because of the TRAIL reason of bot.py. -/
theorem C9_exit_reason_amended :
    (∀ (units : List BUnit) (dp : ℤ → ℚ) (d : ℤ) (spot : ℚ) (eod : Bool)
       (c : ClosedRec), c ∈ (bot_exits units dp d spot eod).2.2 →
         c.reason ∈ (["SL", "TP", "TRAIL", "TIME", "EOD"] : List String))
  ∧ (∀ (units : List BTUnit) (bar_idx : ℤ) (spot : ℚ) (eod : Bool) (c : BTClosed),
       c ∈ (bt_exits units bar_idx spot eod).2 →
         c.reason ∈ (["SL", "TP", "TIME_EXIT", "EOD"] : List String)) :=
  ⟨fun _ _ _ _ _ _ h => bot_exits_reason_mem h,
   fun _ _ _ _ _ h => bt_exits_reason_mem h⟩

/-- Witness for the amended C9: a concrete stop-loss close in each engine
carries a reason from the respective set. -/
theorem C9_exit_reason_witness :
    c9w_rec.reason ∈ (["SL", "TP", "TRAIL", "TIME", "EOD"] : List String)
  ∧ c9w_rec2.reason ∈ (["SL", "TP", "TIME_EXIT", "EOD"] : List String)
  ∧ c9w_rec.reason = "SL" ∧ c9w_rec2.reason = "SL" :=
  ⟨C9_exit_reason_amended.1 c9w_units (fun _ => 0) 0 24938 false c9w_rec (by decide),
   C9_exit_reason_amended.2 c9w_units2 2 24930 false c9w_rec2 (by decide),
   by decide, by decide⟩

/-- Claim C2, counterexample.  The live engine does not evaluate exits in
the order StopLoss, TakeProfit, Trail, TimeExit, EndOfDay: it checks the
end-of-day flag first (Bot._exit line 604).  On a hard-close bar where
the stop-loss threshold is crossed (entry premium 100, current premium
about 69.25, stop level 70, two bars held, so past the minimum hold), the
first match under the claimed order would be StopLoss, but the engine
reports EOD. -/
theorem C2_exit_priority_counterexample :
    mark_prem 100 25000 24938 .CE 2 ≤ 100 * (1 - SL_PCT)
  ∧ MIN_HOLD_BARS ≤ 2
  ∧ (bot_exit_eval
      { unit := 0, bars := 2, peak := 100, entry_spot := 25000, entry_prem := 100,
        opt_type := .CE, qty := 1, lot_size := 65, strike := 25000 }
      24938 true).reason = some "EOD" := by
  refine ⟨by decide, by decide, by decide⟩

/-- Claim C2, amended: in bot.py the priority order is EndOfDay first,
then (past the minimum hold) StopLoss, TakeProfit, Trail, TimeExit; in
backtest.py it is StopLoss, TakeProfit, TimeExit and only then EndOfDay.
In both engines a tick whose current premium crosses the stop level (with
the minimum hold met) never reports TakeProfit: bot.py reports StopLoss
on a non-hard-close bar and EOD on a hard-close bar, backtest.py reports
StopLoss unconditionally; and in backtest.py EndOfDay is reported only
when the time-based exit condition did not apply. -/
theorem C2_exit_priority_amended :
    (∀ (t : Trade) (spot : ℚ), (bot_exit_eval t spot true).reason = some "EOD")
  ∧ (∀ (t : Trade) (spot : ℚ),
       MIN_HOLD_BARS ≤ t.bars →
       mark_prem t.entry_prem t.entry_spot spot t.opt_type t.bars
         ≤ t.entry_prem * (1 - SL_PCT) →
       (bot_exit_eval t spot false).reason = some "SL")
  ∧ (∀ (t : BTrade) (bar_idx : ℤ) (spot : ℚ) (eod : Bool),
       cfg_MIN_HOLD_BARS ≤ bar_idx - t.bar_idx →
       estimate_exit_premium t.entry_prem t.entry_spot spot t.opt_type
           (bar_idx - t.bar_idx) ≤ t.entry_prem * (1 - cfg_SL_DROP_PCT) →
       bt_exit_decide t bar_idx spot eod = some "SL")
  ∧ (∀ (t : BTrade) (bar_idx : ℤ) (spot : ℚ) (eod : Bool),
       bt_exit_decide t bar_idx spot eod = some "EOD" →
       ¬ (cfg_MIN_HOLD_BARS ≤ bar_idx - t.bar_idx ∧
          cfg_TIME_EXIT_BARS ≤ bar_idx - t.bar_idx)) := by
  refine ⟨?_, ?_, ?_, ?_⟩
  · intro t spot
    rfl
  · intro t spot hmin hsl
    unfold bot_exit_eval
    simp only
    split_ifs <;> simp_all
  · intro t bar_idx spot eod hmin hsl
    unfold bt_exit_decide
    simp only
    split_ifs <;> simp_all
  · intro t bar_idx spot eod h
    unfold bt_exit_decide at h
    simp only at h
    split_ifs at h <;> simp_all

/-- Witness for the amended C2 at concrete stop-loss crossings: bot.py
reports EOD on a hard-close bar and SL otherwise, backtest.py reports SL,
and a backtest EOD close implies the time-exit condition was not due. -/
theorem C2_exit_priority_witness :
    (bot_exit_eval c2w_t 24938 true).reason = some "EOD"
  ∧ (bot_exit_eval c2w_t 24938 false).reason = some "SL"
  ∧ bt_exit_decide c2w_bt 2 24930 false = some "SL"
  ∧ ¬ (cfg_MIN_HOLD_BARS ≤ (0 : ℤ) - c2w_bt.bar_idx ∧
       cfg_TIME_EXIT_BARS ≤ (0 : ℤ) - c2w_bt.bar_idx) :=
  ⟨C2_exit_priority_amended.1 c2w_t 24938,
   C2_exit_priority_amended.2.1 c2w_t 24938 (by decide) (by decide),
   C2_exit_priority_amended.2.2.1 c2w_bt 2 24930 false (by decide) (by decide),
   C2_exit_priority_amended.2.2.2 c2w_bt 0 25000 true (by decide)⟩

/-- Claim C3: every position closed with the time-based exit reason
records barsHeld equal to exactly the configured time-exit bar count,
never one more, in both engines: bot.py reads the bars counter before
incrementing it (reason TIME at bars_held = TIME_EXIT_BARS = 8), and
backtest.py derives bars held from the bar index difference (reason
TIME_EXIT at bars_held = TIME_EXIT_BARS = 6).  The hypotheses say the
position starts within its hold budget, which holds for a fresh entry
(bars = 0, respectively a bar-index difference of 0). -/
theorem C3_time_exit_bars_held :
    (∀ (t : Trade) (ticks : List TickIn) (c : ClosedRec),
       t.bars ≤ TIME_EXIT_BARS → bot_hold_trace t ticks = some c →
       c.reason = "TIME" → c.bars_held = TIME_EXIT_BARS)
  ∧ (∀ (t : BTrade) (idx : ℤ) (ticks : List TickIn) (rc : String × ℤ),
       idx - t.bar_idx < cfg_TIME_EXIT_BARS → bt_hold_trace t idx ticks = some rc →
       rc.1 = "TIME_EXIT" → rc.2 = cfg_TIME_EXIT_BARS) := by
  constructor
  · intro t ticks
    induction ticks generalizing t with
    | nil => intro c _ h; simp [bot_hold_trace] at h
    | cons i rest ih =>
      intro c hb h hr
      rw [bot_hold_trace] at h
      rcases he : (bot_exit_eval t i.spot i.eod).reason with _ | r
      · simp only [he] at h
        have hb2 : (bot_exit_eval t i.spot i.eod).next.bars ≤ TIME_EXIT_BARS := by
          rw [bot_exit_eval_next_bars]
          exact bot_exit_eval_none_bars he
        exact ih _ c hb2 h hr
      · simp only [he] at h
        have hc : c = mk_closed t i.spot (bot_exit_eval t i.spot i.eod).cp
            (calc_pnl t.entry_prem (bot_exit_eval t i.spot i.eod).cp t.lot_size t.qty)
            r := by
          injection h with h2
          exact h2.symm
        rw [hc] at hr ⊢
        simp only [mk_closed] at hr ⊢
        subst hr
        have htime := bot_exit_eval_time_bars he
        omega
  · intro t idx ticks
    induction ticks generalizing idx with
    | nil => intro rc _ h; simp [bt_hold_trace] at h
    | cons i rest ih =>
      intro rc hb h hr
      rw [bt_hold_trace] at h
      rcases he : bt_exit_decide t (idx + 1) i.spot i.eod with _ | r
      · simp only [he] at h
        have hb2 : (idx + 1) - t.bar_idx < cfg_TIME_EXIT_BARS :=
          bt_exit_decide_none_bars he
        exact ih _ rc hb2 h hr
      · simp only [he] at h
        obtain rfl : (r, (idx + 1) - t.bar_idx) = rc := by injection h
        have hr2 : r = "TIME_EXIT" := hr
        subst hr2
        have htime := bt_exit_decide_time_bars he
        simp only [cfg_TIME_EXIT_BARS] at *
        omega

/-- Witness for C3: a freshly entered position at constant spot closes by
time exit after exactly 8 bars in bot.py and exactly 6 bars in
backtest.py. -/
theorem C3_time_exit_bars_held_witness :
    c3w_rec.bars_held = TIME_EXIT_BARS ∧ c3w_rc.2 = cfg_TIME_EXIT_BARS
  ∧ c3w_rec.reason = "TIME" ∧ c3w_rc.1 = "TIME_EXIT" :=
  ⟨C3_time_exit_bars_held.1 c3w_t c3w_ticks c3w_rec (by decide) (by decide) (by decide),
   C3_time_exit_bars_held.2 c3w_bt 0 c3w_ticks2 c3w_rc (by decide) (by decide) (by decide),
   by decide, by decide⟩

/-- Claim C5, counterexample.  Unit 0 is Free, has no cooldown, a clean
day P&L, no trades today and a large bar gap — it satisfies all five
claimed eligibility conditions and is first in scan order — yet the
entry loop of bot.py returns unit 1, because unit 0 fails the sixth,
unstated condition: one lot at premium 100 costs 6500, more than its
capital of 100 (Bot._entry line 647 skips it). -/
theorem C5_allocator_counterexample :
    claim5_pick c5_units 0 0 10 = some 0
  ∧ (∃ u, c5_units[(0 : ℕ)]? = some u ∧ claim5_ok u 0 10 = true)
  ∧ bot_entry_pick c5_units 0 0 10 100 = some 1 := by
  refine ⟨by decide, ⟨_, rfl, by decide⟩, by decide⟩

/-- Claim C5, amended: the unit returned by the entry scan of bot.py is
the first in round-robin order that satisfies Unit.can_enter (Free, no
cooldown, day P&L not below the unit day-loss line, trade count below
the per-day cap, bar gap at least 1) AND can afford one lot
(premium * lotSize <= capital); no unit failing any of these is ever
returned, and a unit satisfying the five claimed conditions but failing
affordability is skipped. -/
theorem C5_allocator_amended (units : List BUnit) (rr : ℕ) (d i : ℤ) (ep : ℚ)
    (uid : ℕ) (h : bot_entry_pick units rr d i ep = some uid) :
    (∃ u, units[uid]? = some u ∧ u.can_enter d i = true ∧
      ¬ (u.capital < ep * LOT_SIZE))
  ∧ ∃ k, k < NUM_UNITS ∧ uid = (rr + k) % NUM_UNITS ∧
      ∀ j, j < k → ∀ u, units[(rr + j) % NUM_UNITS]? = some u →
        ¬ (u.can_enter d i = true ∧ ¬ (u.capital < ep * LOT_SIZE)) := by
  obtain ⟨hp, k, hk, huid, hprior⟩ := rrScan_some h
  constructor
  · rcases hg : units[uid]? with _ | u
    · rw [hg] at hp
      simp at hp
    · rw [hg] at hp
      simp only [bot_can_take, Bool.and_eq_true, Bool.not_eq_true',
        decide_eq_false_iff_not] at hp
      exact ⟨u, rfl, hp.1, hp.2⟩
  · refine ⟨k, hk, huid, ?_⟩
    intro j hj u hg hcon
    have hpj := hprior j hj
    simp only [hg] at hpj
    rw [bot_can_take, hcon.1] at hpj
    simp [hcon.2] at hpj

/-- Witness for the amended C5: with five fresh affordable units and the
pointer at 0, the scan returns unit 0, which passes Unit.can_enter and
the affordability check, and no earlier unit was skipped. -/
theorem C5_allocator_witness :
    (∃ u, c5w_units[(0 : ℕ)]? = some u ∧ u.can_enter 0 10 = true ∧
      ¬ (u.capital < 100 * LOT_SIZE))
  ∧ ∃ k, k < NUM_UNITS ∧ (0 : ℕ) = (0 + k) % NUM_UNITS ∧
      ∀ j, j < k → ∀ u, c5w_units[(0 + j) % NUM_UNITS]? = some u →
        ¬ (u.can_enter 0 10 = true ∧ ¬ (u.capital < 100 * LOT_SIZE)) :=
  C5_allocator_amended c5w_units 0 0 10 100 0 (by decide)

theorem get_next_free_cooldown {m : Mgr} {d i : ℤ} {u : TradeUnit} {m2 : Mgr}
    (h : m.get_next_free d i = some (u, m2)) : u.cooldown = 0 := by
  unfold Mgr.get_next_free at h
  rcases hscan : rrScan (m.scan_ok d i) m.rr_ptr cfg_NUM_UNITS with _ | uid
  · rw [hscan] at h
    simp at h
  · rw [hscan] at h
    rcases hg : m.units[uid]? with _ | u0
    · simp only [hg] at h
      exact absurd h (by simp)
    · simp only [hg] at h
      obtain ⟨hu, _⟩ : u0 = u ∧ _ := by
        refine ⟨?_, trivial⟩
        injection h with h2
        exact (congrArg Prod.fst h2)
      obtain ⟨hp, _⟩ := rrScan_some hscan
      rw [Mgr.scan_ok, hg] at hp
      simp only [TradeUnit.free, Bool.and_eq_true, Option.isNone_iff_eq_none,
        beq_iff_eq] at hp
      rw [← hu]
      exact hp.1.1.2

/-- Claim C8: on every close with a negative P&L, units.py increments the
loss streak and, when it reaches the limit, starts the cooldown and
resets the streak; on every close with nonnegative P&L the streak resets
and the cooldown is untouched; and the unit allocator only ever returns a
unit whose cooldown counter is zero. -/
theorem C8_loss_streak_cooldown :
    (∀ (u : TradeUnit) (pnl : ℚ) (d : ℤ), pnl < 0 →
       (cfg_LOSS_STREAK_MAX ≤ u.streak + 1 →
          (u.close pnl d).cooldown = cfg_COOLDOWN_BARS ∧ (u.close pnl d).streak = 0)
     ∧ (u.streak + 1 < cfg_LOSS_STREAK_MAX →
          (u.close pnl d).streak = u.streak + 1 ∧ (u.close pnl d).cooldown = u.cooldown))
  ∧ (∀ (u : TradeUnit) (pnl : ℚ) (d : ℤ), 0 ≤ pnl →
       (u.close pnl d).streak = 0 ∧ (u.close pnl d).cooldown = u.cooldown)
  ∧ (∀ (m : Mgr) (d i : ℤ) (u : TradeUnit) (m2 : Mgr),
       m.get_next_free d i = some (u, m2) → u.cooldown = 0) := by
  refine ⟨?_, ?_, ?_⟩
  · intro u pnl d hneg
    constructor
    · intro hlim
      unfold TradeUnit.close
      simp only
      split_ifs <;> simp_all [cfg_LOSS_STREAK_MAX]
    · intro hlt
      unfold TradeUnit.close
      simp only
      split_ifs <;> simp_all [cfg_LOSS_STREAK_MAX] <;> omega
  · intro u pnl d hpos
    unfold TradeUnit.close
    simp only
    split_ifs <;> simp_all <;> linarith
  · intro m d i u m2 h
    exact get_next_free_cooldown h

/-- Witness for C8: a second consecutive loss on a unit with streak 1
starts the 4-bar cooldown and resets the streak, a win resets the
streak, and a concretely selected unit has cooldown zero. -/
theorem C8_loss_streak_cooldown_witness :
    ((c8w_u.close (-10) 0).cooldown = cfg_COOLDOWN_BARS
      ∧ (c8w_u.close (-10) 0).streak = 0)
  ∧ ((c8w_u.close 5 0).streak = 0 ∧ (c8w_u.close 5 0).cooldown = c8w_u.cooldown)
  ∧ c8w_res.1.cooldown = 0 :=
  ⟨(C8_loss_streak_cooldown.1 c8w_u (-10) 0 (by norm_num)).1 (by decide),
   C8_loss_streak_cooldown.2.1 c8w_u 5 0 (by norm_num),
   C8_loss_streak_cooldown.2.2 c8w_m 0 100 c8w_res.1 c8w_res.2 rfl⟩

theorem scan_ok_of_eligible {m : Mgr} {d i : ℤ} {uid : ℕ} {u : TradeUnit}
    (hg : m.units[uid]? = some u) (he : u.eligible d i = true) :
    m.scan_ok d i uid = true := by
  rw [Mgr.scan_ok, hg]
  exact he

theorem get_next_free_all_eligible {m : Mgr} {d i : ℤ}
    (hlen : m.units.length = cfg_NUM_UNITS) (hrr : m.rr_ptr < cfg_NUM_UNITS)
    (hall : ∀ u ∈ m.units, u.eligible d i = true) :
    ∃ u, m.units[m.rr_ptr]? = some u ∧
      m.get_next_free d i =
        some (u, { m with rr_ptr := (m.rr_ptr + 1) % cfg_NUM_UNITS }) := by
  have hidx : m.rr_ptr < m.units.length := by rw [hlen]; exact hrr
  have hg : m.units[m.rr_ptr]? = some m.units[m.rr_ptr] :=
    List.getElem?_eq_getElem hidx
  have hmem : m.units[m.rr_ptr] ∈ m.units := List.getElem_mem hidx
  have hmod : m.rr_ptr % cfg_NUM_UNITS = m.rr_ptr := Nat.mod_eq_of_lt hrr
  have hscan : rrScan (m.scan_ok d i) m.rr_ptr cfg_NUM_UNITS =
      some (m.rr_ptr % cfg_NUM_UNITS) :=
    rrScan_head (by norm_num [cfg_NUM_UNITS])
      (by rw [hmod]; exact scan_ok_of_eligible hg (hall _ hmem))
  rw [hmod] at hscan
  refine ⟨m.units[m.rr_ptr], hg, ?_⟩
  unfold Mgr.get_next_free
  rw [hscan]
  simp only [hg]

/-- Claim C7, counterexample.  Round-robin selection is not fair when
some units are busy: with units 0, 2, 3 and 4 holding positions (no
cooldown anywhere) and only unit 1 free, five consecutive successful
selections all return unit 1 — the first from pointer 0 advances the
pointer to 2, and each later one from pointer 2 wraps around back to
unit 1 and leaves the pointer at 2 again — so unit 1 receives a second
(and fifth) entry before any other unit receives its first, with no
intervening cooldowns. -/
theorem C7_fairness_counterexample :
    ((c7_m0.get_next_free 0 100).map fun r => r.1.uid) = some 1
  ∧ ((c7_m0.get_next_free 0 100).map fun r => r.2.rr_ptr) = some 2
  ∧ ((c7_m1.get_next_free 0 100).map fun r => r.1.uid) = some 1
  ∧ ((c7_m1.get_next_free 0 100).map fun r => r.2.rr_ptr) = some 2
  ∧ (∀ u ∈ c7_m0.units, u.cooldown = 0) ∧ (∀ u ∈ c7_m1.units, u.cooldown = 0) := by
  refine ⟨by decide, by decide, by decide, by decide, by decide, by decide⟩

/-- Claim C7, amended: round-robin allocation is fair when every unit is
eligible at each selection.  For a run of selections in which, at every
step below the unit count, all units pass the eligibility test, unit ids
equal their positions, and the rotating pointer is carried from each
selection to the next, the selected units are pairwise distinct — so
every unit receives exactly one entry before any receives a second.  The
original unconditional claim fails when other units are busy holding
positions (see the counterexample). -/
theorem C7_fairness_amended (ms : ℕ → Mgr) (d i : ℤ)
    (hlen : ∀ k, k < cfg_NUM_UNITS → (ms k).units.length = cfg_NUM_UNITS)
    (hall : ∀ k, k < cfg_NUM_UNITS → ∀ u ∈ (ms k).units, u.eligible d i = true)
    (huid : ∀ k, k < cfg_NUM_UNITS → ∀ n, n < cfg_NUM_UNITS →
       ∀ u, (ms k).units[n]? = some u → u.uid = n)
    (hrr0 : (ms 0).rr_ptr < cfg_NUM_UNITS)
    (hchain : ∀ k, k + 1 < cfg_NUM_UNITS → ∀ u m2,
       (ms k).get_next_free d i = some (u, m2) → (ms (k + 1)).rr_ptr = m2.rr_ptr) :
    ∀ j k, j < cfg_NUM_UNITS → k < cfg_NUM_UNITS →
      ((ms j).get_next_free d i).map (fun r => r.1.uid)
        = ((ms k).get_next_free d i).map (fun r => r.1.uid) → j = k := by
  have hNpos : 0 < cfg_NUM_UNITS := by norm_num [cfg_NUM_UNITS]
  have hrr : ∀ k, k < cfg_NUM_UNITS →
      (ms k).rr_ptr = ((ms 0).rr_ptr + k) % cfg_NUM_UNITS := by
    intro k
    induction k with
    | zero =>
      intro _
      simpa using (Nat.mod_eq_of_lt hrr0).symm
    | succ n ihn =>
      intro hk
      have hn : n < cfg_NUM_UNITS := by omega
      obtain ⟨u, hg, hget⟩ :=
        get_next_free_all_eligible (hlen n hn)
          (by rw [ihn hn]; exact Nat.mod_lt _ hNpos) (hall n hn)
      have hc := hchain n (by omega) u _ hget
      rw [hc]
      rw [ihn hn]
      simp only [cfg_NUM_UNITS] at *
      omega
  have hsel : ∀ k, k < cfg_NUM_UNITS →
      ((ms k).get_next_free d i).map (fun r => r.1.uid) = some ((ms k).rr_ptr) := by
    intro k hk
    have hrrk : (ms k).rr_ptr < cfg_NUM_UNITS := by
      rw [hrr k hk]
      exact Nat.mod_lt _ hNpos
    obtain ⟨u, hg, hget⟩ :=
      get_next_free_all_eligible (hlen k hk) hrrk (hall k hk)
    rw [hget]
    exact congrArg some (huid k hk _ hrrk u hg)
  intro j k hj hk heq
  rw [hsel j hj, hsel k hk, hrr j hj, hrr k hk] at heq
  have h2 := Option.some.inj heq
  simp only [cfg_NUM_UNITS] at h2 hj hk
  omega

/-- Witness for the amended C7: on a run over five fresh all-eligible
units with the pointer carried along, step 0 selects unit 0, and the
fairness theorem instantiated at equal steps 0 and 0 closes on the
selection equality given by rfl. -/
theorem C7_fairness_witness :
    ((c7w_ms 0).get_next_free 0 100).map (fun r => r.1.uid) = some 0
  ∧ (0 : ℕ) = 0 := by
  refine ⟨by decide, ?_⟩
  refine C7_fairness_amended c7w_ms 0 100 ?_ ?_ ?_ ?_ ?_ 0 0
    (by norm_num [cfg_NUM_UNITS]) (by norm_num [cfg_NUM_UNITS]) rfl
  · intro k _
    rfl
  · intro k _
    exact (by decide : ∀ u ∈ c7w_units, TradeUnit.eligible u 0 100 = true)
  · intro k _ n hn u h
    have hn5 : n < 5 := by simpa [cfg_NUM_UNITS] using hn
    interval_cases n
    · obtain rfl := (Option.some.inj (show some (c7w_unit 0) = some u from h))
      rfl
    · obtain rfl := (Option.some.inj (show some (c7w_unit 1) = some u from h))
      rfl
    · obtain rfl := (Option.some.inj (show some (c7w_unit 2) = some u from h))
      rfl
    · obtain rfl := (Option.some.inj (show some (c7w_unit 3) = some u from h))
      rfl
    · obtain rfl := (Option.some.inj (show some (c7w_unit 4) = some u from h))
      rfl
  · norm_num [c7w_ms, cfg_NUM_UNITS]
  · intro k hk u m2 h
    have hlenk : (c7w_ms k).units.length = cfg_NUM_UNITS := rfl
    have hrrk : (c7w_ms k).rr_ptr < cfg_NUM_UNITS := by
      simp only [c7w_ms, cfg_NUM_UNITS]
      omega
    obtain ⟨u0, hg, hget⟩ := get_next_free_all_eligible hlenk hrrk
      (by exact (by decide : ∀ u ∈ c7w_units, TradeUnit.eligible u 0 100 = true))
    rw [hget] at h
    have h2 : m2 = { c7w_ms k with
        rr_ptr := ((c7w_ms k).rr_ptr + 1) % cfg_NUM_UNITS } :=
      (congrArg Prod.snd (Option.some.inj h)).symm
    rw [h2]
    show (c7w_ms (k + 1)).rr_ptr = ((c7w_ms k).rr_ptr + 1) % cfg_NUM_UNITS
    simp only [c7w_ms, cfg_NUM_UNITS]
    omega

/-- Claim C6, counterexample.  When the portfolio drawdown halt of the
live engine is active, existing positions are NOT exited: with total
capital 85000 against a month-start capital of 100000 (a 15 percent
drawdown, past the 8 percent monthly halt), Bot._bar returns before the
exit pass, so a held position whose stop-loss threshold is crossed on
this very bar (current premium about 69.25 against stop level 70) stays
open and no closed trade is emitted. -/
theorem C6_halt_counterexample :
    (bot_exit_eval c6_t 24938 false).reason = some "SL"
  ∧ (bot_bar c6_s c6_b).2 = []
  ∧ ((bot_bar c6_s c6_b).1.units.map BUnit.trade)
      = [some c6_t, none, none, none, none] := by
  refine ⟨by decide, by decide, by decide⟩

/-- Claim C6, amended: only the daily loss halt of the live engine and
the drawdown halt of backtest.py block new entries alone.  In bot.py,
when the monthly drawdown halt fires the whole bar is abandoned — no
exits are evaluated (see the counterexample); when only the daily loss
halt is active, the exit pass still runs and no entry happens.  In
backtest.py the emitted closed trades never depend on the halt, and an
active halt leaves the unit list exactly as the exit pass produced it
with the rotating pointer unmoved. -/
theorem C6_halt_scope_amended :
    (∀ (s : BotState) (b : BotBarIn), s.last_day = some (b.day, b.month) →
       (total_capital (s.units.map BUnit.tick) - s.month_cap) / s.month_cap
           < -MAX_PORT_DD_MONTHLY →
       (bot_bar s b).2 = [] ∧ (bot_bar s b).1.units = s.units.map BUnit.tick)
  ∧ (∀ (s : BotState) (b : BotBarIn), s.last_day = some (b.day, b.month) →
       ¬ ((total_capital (s.units.map BUnit.tick) - s.month_cap) / s.month_cap
           < -MAX_PORT_DD_MONTHLY) →
       s.port_dpnl b.day ≤ -(TOTAL_CAPITAL * MAX_PORT_DD_DAILY) →
       (bot_bar s b).1.units
           = (bot_exits (s.units.map BUnit.tick) s.port_dpnl b.day b.spot
               (is_hard_close b.hm)).1
         ∧ (bot_bar s b).2
           = (bot_exits (s.units.map BUnit.tick) s.port_dpnl b.day b.spot
               (is_hard_close b.hm)).2.2
         ∧ (bot_bar s b).1.rr = s.rr)
  ∧ (∀ (s : BTState) (b : BTBarIn),
       (bt_bar s b).2
         = (bt_exits (s.units.map BTUnit.tick) (s.bar_idx + 1) b.spot
             (decide (cfg_HARD_CLOSE ≤ b.hm))).2)
  ∧ (∀ (s : BTState) (b : BTBarIn),
       bt_halted ((bt_exits (s.units.map BTUnit.tick) (s.bar_idx + 1) b.spot
           (decide (cfg_HARD_CLOSE ≤ b.hm))).1) = true →
       (bt_bar s b).1.units
           = (bt_exits (s.units.map BTUnit.tick) (s.bar_idx + 1) b.spot
               (decide (cfg_HARD_CLOSE ≤ b.hm))).1
         ∧ (bt_bar s b).1.rr = s.rr) := by
  refine ⟨?_, ?_, ?_, ?_⟩
  · intro s b hld hhalt
    simp only [bot_bar, hld]
    simp only [ne_eq, not_true_eq_false, if_false, hhalt, if_true]
    exact ⟨trivial, trivial⟩
  · intro s b hld hhalt hdaily
    have hpd : decide (-(TOTAL_CAPITAL * MAX_PORT_DD_DAILY) < s.port_dpnl b.day)
        = false := by
      simp only [decide_eq_false_iff_not, not_lt]
      exact hdaily
    simp only [bot_bar, hld]
    simp only [ne_eq, not_true_eq_false, if_false, hhalt]
    simp only [hpd, Bool.and_false, Bool.false_and, Bool.false_eq_true, if_false]
    exact ⟨trivial, trivial, trivial⟩
  · intro s b
    rfl
  · intro s b hhalt
    simp only [bt_bar]
    simp only [hhalt, Bool.not_true, Bool.and_false, Bool.false_eq_true, if_false]
    exact ⟨trivial, trivial⟩

/-- Witness for the amended C6: the three halt behaviours at concrete
states — a monthly-halted live bar yields no exits, a daily-halted live
bar still runs the exit pass with no entry, and a halted backtest bar
keeps the exit output and pointer. -/
theorem C6_halt_scope_witness :
    ((bot_bar c6_s c6_b).2 = [] ∧ (bot_bar c6_s c6_b).1.units
        = c6_s.units.map BUnit.tick)
  ∧ ((bot_bar c6w_s2 c6_b).1.units
        = (bot_exits (c6w_s2.units.map BUnit.tick) c6w_s2.port_dpnl c6_b.day
            c6_b.spot (is_hard_close c6_b.hm)).1
      ∧ (bot_bar c6w_s2 c6_b).2
        = (bot_exits (c6w_s2.units.map BUnit.tick) c6w_s2.port_dpnl c6_b.day
            c6_b.spot (is_hard_close c6_b.hm)).2.2
      ∧ (bot_bar c6w_s2 c6_b).1.rr = c6w_s2.rr)
  ∧ ((bt_bar c6w_bts c6w_btb).1.units
        = (bt_exits (c6w_bts.units.map BTUnit.tick) (c6w_bts.bar_idx + 1)
            c6w_btb.spot (decide (cfg_HARD_CLOSE ≤ c6w_btb.hm))).1
      ∧ (bt_bar c6w_bts c6w_btb).1.rr = c6w_bts.rr) :=
  ⟨C6_halt_scope_amended.1 c6_s c6_b rfl (by decide),
   C6_halt_scope_amended.2.1 c6w_s2 c6_b rfl (by decide) (by decide),
   C6_halt_scope_amended.2.2.2 c6w_bts c6w_btb (by decide)⟩

theorem qty_two_cost {capital ep : ℚ} (hep : 0 < ep)
    (h2 : qty_calc capital ep = 2) :
    2 * (ep * LOT_SIZE) ≤ capital * MAX_COST_PCT := by
  have hpos : (0 : ℚ) < ep * LOT_SIZE := by
    have hl : (0 : ℚ) < LOT_SIZE := by norm_num [LOT_SIZE]
    positivity
  have htn : 2 ≤ Int.toNat ⌊capital * MAX_COST_PCT / (ep * LOT_SIZE)⌋ := by
    by_contra hc
    unfold qty_calc MAX_LOTS at h2
    omega
  have hfl : (2 : ℤ) ≤ ⌊capital * MAX_COST_PCT / (ep * LOT_SIZE)⌋ := by omega
  have hv : (2 : ℚ) ≤ capital * MAX_COST_PCT / (ep * LOT_SIZE) := by
    calc (2 : ℚ) = ((2 : ℤ) : ℚ) := by norm_num
      _ ≤ (⌊capital * MAX_COST_PCT / (ep * LOT_SIZE)⌋ : ℚ) := by exact_mod_cast hfl
      _ ≤ capital * MAX_COST_PCT / (ep * LOT_SIZE) := Int.floor_le _
  rw [le_div_iff₀ hpos] at hv
  linarith

theorem qty_cost_le {capital ep : ℚ} (hep : 0 < ep)
    (haff : ¬ (capital < ep * LOT_SIZE)) :
    ep * LOT_SIZE * ((qty_calc capital ep : ℕ) : ℚ) ≤ capital := by
  have haff2 : ep * LOT_SIZE ≤ capital := not_lt.mp haff
  have hpos : (0 : ℚ) < ep * LOT_SIZE := by
    have hl : (0 : ℚ) < LOT_SIZE := by norm_num [LOT_SIZE]
    positivity
  have hcap0 : (0 : ℚ) ≤ capital := le_trans (le_of_lt hpos) haff2
  rcases Nat.lt_or_ge (qty_calc capital ep) 2 with h1 | h2
  · have hq : qty_calc capital ep = 1 := by
      unfold qty_calc MAX_LOTS at *
      omega
    rw [hq]
    push_cast
    linarith
  · have hq : qty_calc capital ep = 2 := by
      unfold qty_calc MAX_LOTS at *
      omega
    have hb := qty_two_cost hep hq
    have hmc : capital * MAX_COST_PCT ≤ capital := by
      have h1 : capital * MAX_COST_PCT ≤ capital * 1 :=
        mul_le_mul_of_nonneg_left (by norm_num [MAX_COST_PCT]) hcap0
      linarith
    rw [hq]
    push_cast
    linarith

theorem cost_mul_int {ep : ℚ} (k : ℤ) (hk : ep * 10 = (k : ℚ)) (q : ℕ) :
    ∃ m : ℤ, ep * LOT_SIZE * (q : ℚ) * 100 = (m : ℚ) := by
  refine ⟨k * 650 * (q : ℤ), ?_⟩
  have hep : ep = (k : ℚ) / 10 := by
    field_simp
    linarith
  rw [hep]
  unfold LOT_SIZE
  push_cast
  ring

theorem close_capital_trade (u : BUnit) (pnl : ℚ) (d : ℤ) :
    (u.close pnl d).capital = u.capital + pnl ∧ (u.close pnl d).trade = none := by
  unfold BUnit.close
  simp only
  split_ifs <;> exact ⟨rfl, rfl⟩

theorem ustep_inv {u : BUnit} {e : UnitEvent} (hinv : capInv u) (hok : eventOK e) :
    capInv (ustep u e) := by
  rcases e with _ | ⟨spot, eod, d⟩ | ⟨ep, spot, s, d, i⟩
  · unfold ustep BUnit.tick
    split_ifs <;> exact hinv
  · show capInv (ustep u (.bar spot eod d))
    unfold ustep
    simp only
    rcases ht : u.trade with _ | t
    · simp only [ht]
      exact hinv
    · simp only [ht]
      rcases hr : (bot_exit_eval t spot eod).reason with _ | r
      · simp only [hr]
        refine ⟨hinv.1, ?_⟩
        intro t2 ht2
        have ht3 : some (bot_exit_eval t spot eod).next = some t2 := ht2
        obtain rfl := Option.some.inj ht3
        exact hinv.2 t ht
      · simp only [hr]
        obtain ⟨hcap, htr⟩ := close_capital_trade u
          (calc_pnl t.entry_prem (bot_exit_eval t spot eod).cp t.lot_size t.qty) d
        refine ⟨?_, ?_⟩
        · rw [hcap]
          obtain ⟨hcost, m, hm⟩ := hinv.2 t ht
          have hfloor := calc_pnl_ge t.entry_prem (bot_exit_eval t spot eod).cp
            t.lot_size t.qty ⟨m, hm⟩
          linarith [hinv.1]
        · intro t2 ht2
          rw [htr] at ht2
          exact absurd ht2 (by simp)
  · show capInv (ustep u (.sig ep spot s d i))
    unfold ustep
    simp only
    split_ifs with hg
    · obtain ⟨hep, k, hk⟩ := hok
      have haff : ¬ (u.capital < ep * LOT_SIZE) := by
        rcases Bool.and_eq_true .. |>.mp hg with ⟨_, h2⟩
        simpa using h2
      refine ⟨hinv.1, ?_⟩
      intro t2 ht2
      have ht3 : some (mk_trade u.uid ep spot s (qty_calc u.capital ep)) = some t2 :=
        ht2
      obtain rfl := Option.some.inj ht3
      refine ⟨?_, ?_⟩
      · show ep * LOT_SIZE * _ ≤ _
        exact qty_cost_le hep haff
      · exact cost_mul_int k hk _
    · exact hinv

/-- Claim C10: a unit's capital stays nonnegative in every reachable
state.  Starting from any state satisfying the lifecycle invariant (in
particular a fresh unit: nonnegative capital and no open trade), after
any sequence of ticks, holding-bar evaluations and entry attempts whose
premium quotes are positive one-decimal values (as synth_prem produces),
the capital is still nonnegative: an entry is admitted only when one lot
fits in capital (and a second lot only when two lots fit in
capital * maxCostFraction), and every realized loss is floored at the
premium paid.  The second conjunct states that two-lot sizing bound
explicitly. -/
theorem C10_capital_nonneg :
    (∀ (evs : List UnitEvent) (u : BUnit), capInv u →
       (∀ e ∈ evs, eventOK e) → 0 ≤ (evs.foldl ustep u).capital)
  ∧ (∀ capital ep : ℚ, 0 < ep → qty_calc capital ep = 2 →
       2 * (ep * LOT_SIZE) ≤ capital * MAX_COST_PCT) := by
  constructor
  · intro evs
    induction evs with
    | nil =>
      intro u hinv _
      exact hinv.1
    | cons e rest ih =>
      intro u hinv hok
      simp only [List.foldl_cons]
      exact ih _ (ustep_inv hinv (hok e (by simp)))
        (fun e2 he2 => hok e2 (by simp [he2]))
  · intro capital ep hep h2
    exact qty_two_cost hep h2

/-- Witness for C10: a fresh unit that enters two lots at premium 100 and
is force-closed at end of day after a 1000-point crash still has
nonnegative capital, and the two-lot bound holds at that entry. -/
theorem C10_capital_nonneg_witness :
    0 ≤ (c10w_evs.foldl ustep c10w_u).capital
  ∧ 2 * ((100 : ℚ) * LOT_SIZE) ≤ 20000 * MAX_COST_PCT :=
  ⟨C10_capital_nonneg.1 c10w_evs c10w_u
      ⟨by norm_num [c10w_u], fun t ht => absurd ht (by simp [c10w_u])⟩
      (by
        intro e he
        simp only [c10w_evs, List.mem_cons, List.not_mem_nil, or_false] at he
        rcases he with rfl | rfl | rfl
        · exact ⟨by norm_num, 1000, by norm_num⟩
        · trivial
        · trivial),
   C10_capital_nonneg.2 20000 100 (by norm_num) (by decide)⟩
